import Mathlib

/-!
Verification development for `bec_qthemes`: a shallow embedding of the
hover-gradient decoration (`bec_qthemes/_hover_gradient.py`) and the
material-icon rendering pipeline (`bec_qthemes/_icon/material_icons.py`),
with theorems settling the specified behavioural claims.
-/

namespace BecQThemes

/-- A 2-D integer point, embedding `QtCore.QPoint`. -/
structure Pt where
  x : Int
  y : Int
deriving DecidableEq, Repr

/-- An RGBA colour with 8-bit channels, embedding `QtGui.QColor` values. -/
structure RGBA where
  r : Nat
  g : Nat
  b : Nat
  a : Nat
deriving DecidableEq, Repr

/-- `QtCore.Qt.transparent`. -/
def transparentColor : RGBA := ⟨0, 0, 0, 0⟩

/-- Opaque white, the default accent `QColor("#ffffff")`. -/
def whiteColor : RGBA := ⟨255, 255, 255, 255⟩

/-- Value of a hex digit character, `none` when not a hex digit. -/
def hexDigitVal (c : Char) : Option Nat :=
  if '0' ≤ c ∧ c ≤ '9' then some (c.toNat - '0'.toNat)
  else if 'a' ≤ c ∧ c ≤ 'f' then some (c.toNat - 'a'.toNat + 10)
  else if 'A' ≤ c ∧ c ≤ 'F' then some (c.toNat - 'A'.toNat + 10)
  else none

/-- Value of a two-hex-digit byte, `none` when either digit is invalid. -/
def hexByte (c₁ c₂ : Char) : Option Nat := do
  let h ← hexDigitVal c₁
  let l ← hexDigitVal c₂
  pure (16 * h + l)

/-- Modelled from the spec: `Color.from_hex` of `bec_qthemes._color` (not under
`src/`) parses a `#rrggbb` hex string directly into an opaque RGBA colour
(`colorSpec` is a hex string: parse directly); any other shape yields opaque
black as the defensive default. -/
def colorFromHex (s : String) : RGBA :=
  match s.toList with
  | ['#', r₁, r₂, g₁, g₂, b₁, b₂] =>
    match hexByte r₁ r₂, hexByte g₁ g₂, hexByte b₁ b₂ with
    | some r, some g, some b => ⟨r, g, b, 255⟩
    | _, _, _ => ⟨0, 0, 0, 255⟩
  | _ => ⟨0, 0, 0, 255⟩

/-- Modelled from the spec: `QColor(c)` construction from a colour string; hex
strings parse as `colorFromHex`, which covers every colour literal the
hover-gradient module passes. -/
def qcolorOf (s : String) : RGBA := colorFromHex s

/-- The dynamic `_hg_*` attributes `enable_hover_gradient` staples onto a
widget, together with the decoration it installs (the paint wrapper with its
captured opacity ceiling, the event filter, and the two widget flags). -/
structure WModel where
  hg_enabled : Bool
  hg_cols : List RGBA
  hg_hover : Bool
  hg_pressed : Bool
  hg_pos : Pt
  opacityCeil : ℚ
  paintPatched : Bool
  filterInstalled : Bool
  mouseTracking : Bool
  styledBackground : Bool
deriving DecidableEq, Repr

/-- The `colours` argument of `enable_hover_gradient`: `None`, a single colour
string, or a list of colour strings. -/
inductive ColoursArg where
  | noneArg : ColoursArg
  | str (s : String) : ColoursArg
  | list (l : List String) : ColoursArg
deriving DecidableEq, Repr

/-- Embedding of `enable_hover_gradient` (src/bec_qthemes/_hover_gradient.py,
lines 109-165): early return on the `_hg_enabled` marker, `opacity = 255 *
opacity` (no clamping in the source), colour broadcasting, state
initialisation with sentinel pointer `(-1, -1)`, paint wrapper and filter
installation. -/
def enable_hover_gradient (w : WModel) (colours : ColoursArg) (opacity : ℚ) : WModel :=
  if w.hg_enabled then w
  else
    let op : ℚ := 255 * opacity
    let cs : List String :=
      match colours with
      | .noneArg => ["#ffffff"]
      | .str s => [s]
      | .list l => l
    { hg_enabled := true
      hg_cols := cs.map qcolorOf
      hg_hover := false
      hg_pressed := false
      hg_pos := ⟨-1, -1⟩
      opacityCeil := op
      paintPatched := true
      filterInstalled := true
      mouseTracking := true
      styledBackground := true }

/-- A fresh, undecorated widget used as a concrete input. -/
def freshWidget : WModel :=
  { hg_enabled := false, hg_cols := [], hg_hover := false, hg_pressed := false
    hg_pos := ⟨0, 0⟩, opacityCeil := 0, paintPatched := false
    filterInstalled := false, mouseTracking := false, styledBackground := false }

/-- The spec's clamp: `clamp(x, lo, hi)` restricts `x` into `[lo, hi]`. -/
def clampSpec (x lo hi : ℚ) : ℚ := max lo (min hi x)

/-- The hover interaction state the filter mutates on the root widget:
`_hg_hover`, `_hg_pressed`, `_hg_pos`. -/
structure HGState where
  hover : Bool
  pressed : Bool
  pos : Pt
deriving DecidableEq, Repr

/-- The root widget as the event filter sees it: its global top-left corner
(for `mapFromGlobal`), its size (for `rect().contains`), and its hover
state. -/
structure FWidget where
  ox : Int
  oy : Int
  wdt : Int
  hgt : Int
  st : HGState
deriving DecidableEq, Repr

/-- `widget.mapFromGlobal(g)`: global to widget-local coordinates. -/
def mapFromGlobal (w : FWidget) (g : Pt) : Pt := ⟨g.x - w.ox, g.y - w.oy⟩

/-- `widget.rect().contains(p)`: `QRect(0, 0, wdt, hgt)` contains `p`
(edges inclusive, right/bottom edge at `wdt - 1` / `hgt - 1`). -/
def rectContains (w : FWidget) (p : Pt) : Bool :=
  0 ≤ p.x ∧ p.x ≤ w.wdt - 1 ∧ 0 ≤ p.y ∧ p.y ≤ w.hgt - 1

/-- The pointer events `_HoverGradientFilter.eventFilter` reacts to.
`mouseMove` carries the global position (`event.globalPos()`), `enter`
the event-local position (`event.pos()`). -/
inductive Ev where
  | mouseMove (globalPos : Pt) : Ev
  | enter (pos : Pt) : Ev
  | leave : Ev
  | press : Ev
  | release : Ev
  | otherEv : Ev
deriving DecidableEq, Repr

/-- Embedding of `_HoverGradientFilter.eventFilter`
(src/bec_qthemes/_hover_gradient.py, lines 33-64) with a live target: the new
hover state of the root widget, paired with whether `target.update()` (a
repaint request) was issued.  The `watched` object the event arrived on is a
parameter the source never consults. -/
def eventFilter (w : FWidget) (watched : Nat) (e : Ev) : HGState × Bool :=
  let _ := watched
  match e with
  | .mouseMove g =>
    let inside := rectContains w (mapFromGlobal w g)
    if inside then
      let pos := mapFromGlobal w g
      if pos ≠ w.st.pos then
        ({ w.st with pos := pos, hover := true }, true)
      else
        ({ w.st with hover := true }, false)
    else if w.st.hover then
      ({ w.st with hover := false }, true)
    else
      (w.st, false)
  | .enter p => ({ w.st with hover := true, pos := p }, true)
  | .leave => ({ w.st with hover := false }, true)
  | .press => ({ w.st with pressed := true }, true)
  | .release => ({ w.st with pressed := false }, true)
  | .otherEv => (w.st, false)

/-- The filter object itself: `_target` is `None` once `_on_dead` has run. -/
structure HFilter where
  target : Option FWidget
deriving DecidableEq, Repr

/-- Embedding of `_HoverGradientFilter._on_dead`
(src/bec_qthemes/_hover_gradient.py, lines 20-24): clears the back-reference
to the destroyed widget. -/
def on_dead (_f : HFilter) : HFilter := ⟨none⟩

/-- Embedding of `_HoverGradientFilter.eventFilter` including the
live-reference guard of lines 34-35: with a cleared target it returns
immediately, touching nothing and requesting no repaint. -/
def eventFilterGuarded (f : HFilter) (watched : Nat) (e : Ev) : HFilter × Bool :=
  match f.target with
  | none => (f, false)
  | some w =>
    let (st, repaint) := eventFilter w watched e
    (⟨some { w with st := st }⟩, repaint)

/-- What `_draw_hover_gradient` needs from the widget: size, the `_hg_*`
attributes. -/
structure DrawWidget where
  wdt : Int
  hgt : Int
  hover : Bool
  pressed : Bool
  pos : Pt
  cols : List RGBA
deriving DecidableEq, Repr

/-- The radial gradient `_draw_hover_gradient` fills the clip path with:
centre point, radius, centre colour (accent RGB with a recomputed alpha,
kept exact as a rational), and edge colour. -/
structure GradientSpec where
  center : Pt
  radius : ℚ
  centerR : Nat
  centerG : Nat
  centerB : Nat
  centerAlpha : ℚ
  edge : RGBA
deriving DecidableEq, Repr

/-- Embedding of `_draw_hover_gradient`
(src/bec_qthemes/_hover_gradient.py, lines 67-85): `none` when the function
returns without painting, otherwise the radial gradient it fills the clip
path with. -/
def draw_hover_gradient (w : DrawWidget) (opacity : ℚ) : Option GradientSpec :=
  if ¬ w.hover ∨ w.pos.x < 0 then none
  else
    let accent := w.cols.headD whiteColor
    let radius : ℚ := (max w.wdt w.hgt : ℚ) * (if w.pressed then 6/10 else 9/10)
    let centerAlpha : ℚ := if w.pressed then opacity else opacity * (6/10)
    let edge := match w.cols with
      | _ :: e :: _ => e
      | _ => transparentColor
    some { center := w.pos, radius := radius
           centerR := accent.r, centerG := accent.g, centerB := accent.b
           centerAlpha := centerAlpha, edge := edge }

/-- The never-entered sentinel pointer position `QPoint(-1, -1)` stored at
attachment. -/
def sentinelPos : Pt := ⟨-1, -1⟩

/-- ASCII decimal digit, the regex class `[0-9]`. -/
def isDigitCh (c : Char) : Bool := '0' ≤ c ∧ c ≤ '9'

/-- The regex whitespace class `\s` for the style-text scan. -/
def isSpaceCh (c : Char) : Bool :=
  c = ' ' ∨ c = '\t' ∨ c = '\n' ∨ c = '\r' ∨ c = '\x0b' ∨ c = '\x0c'

/-- Drop leading `\s*` whitespace. -/
def dropSpacesL : List Char → List Char
  | [] => []
  | c :: rest => if isSpaceCh c then dropSpacesL rest else c :: rest

/-- Match a literal character sequence at the head of the input, returning
the remainder on success. -/
def stripLit : List Char → List Char → Option (List Char)
  | [], rest => some rest
  | _ :: _, [] => none
  | l :: ls, c :: cs => if c = l then stripLit ls cs else none

/-- The greedy `[0-9]+` (returned as the maximal digit run and the rest). -/
def spanDigits : List Char → List Char × List Char
  | [] => ([], [])
  | c :: rest =>
    if isDigitCh c then
      let (ds, tl) := spanDigits rest
      (c :: ds, tl)
    else ([], c :: rest)

/-- Numeric value of a digit run. -/
def digitsVal (ds : List Char) : Nat :=
  ds.foldl (fun acc c => 10 * acc + (c.toNat - '0'.toNat)) 0

/-- Attempt the pattern `border-radius\s*:\s*([0-9]+)` at the head of the
input; returns the captured number on success. -/
def matchDecl (l : List Char) : Option Nat :=
  match stripLit "border-radius".toList l with
  | none => none
  | some r₁ =>
    match dropSpacesL r₁ with
    | ':' :: r₂ =>
      let (ds, _) := spanDigits (dropSpacesL r₂)
      if ds.isEmpty then none else some (digitsVal ds)
    | _ => none

/-- All matches of `re.findall(r"border-radius\s*:\s*([0-9]+)", source)` as
numbers, left to right.  (Candidate matches cannot overlap: the consumed
text after its first character contains no further `b`, so a char-by-char
scan coincides with `re`'s non-overlapping scan.) -/
def findAllRadius : List Char → List Nat
  | [] => []
  | c :: rest =>
    match matchDecl (c :: rest) with
    | some n => n :: findAllRadius rest
    | none => findAllRadius rest

/-- The widget-local and (when a `QApplication` instance exists)
application-global style texts. -/
structure StyleEnv where
  widgetSheet : List Char
  appSheet : Option (List Char)
deriving DecidableEq, Repr

/-- The source loop of `_extract_border_radius`: the last `border-radius`
match of the first source that has any; `0` when none does. -/
def firstSourceLast : List (List Char) → Nat
  | [] => 0
  | s :: rest =>
    match (findAllRadius s).getLast? with
    | some n => n
    | none => firstSourceLast rest

/-- Embedding of `_extract_border_radius`
(src/bec_qthemes/_hover_gradient.py, lines 88-106): scan the widget's own
style sheet, then (when a `QApplication` instance exists) the application
style sheet, and return the last `border-radius` match of the first source
that has any; `0` when none does. -/
def extract_border_radius (env : StyleEnv) : Nat :=
  firstSourceLast ([env.widgetSheet] ++ (match env.appSheet with
    | some a => [a]
    | none => []))

/-- The per-widget state `patched_paint` reads and writes: the style
environment it would scan and the memoised `_hg_radius`. -/
structure PaintState where
  env : StyleEnv
  cachedRadius : Option Nat
deriving DecidableEq, Repr

/-- Embedding of the radius computation in `patched_paint`
(src/bec_qthemes/_hover_gradient.py, lines 144-147): use `_hg_radius` when
set, otherwise extract it from the style texts and memoise.  Returns the
radius used for this paint together with the post-paint state. -/
def patched_paint_radius (s : PaintState) : Nat × PaintState :=
  match s.cachedRadius with
  | some r => (r, s)
  | none =>
    let r := extract_border_radius s.env
    (r, { s with cachedRadius := some r })

/-- An icon-name table (`_material_icons()` / `_material_icons_filled()`):
name to SVG source, `none` when absent.  A Python `dict[id]` on an absent
key raises `KeyError`, a subclass of `LookupError`. -/
def IconTable : Type := String → Option String

/-- Embedding of `_MaterialIconSVG.__init__`
(src/bec_qthemes/_icon/material_icons.py, lines 42-55): the SVG source
selected for `(id, filled)`, or `Except.error ()` for the `LookupError` the
consulted table raises. -/
def materialIconSource (ftab otab : IconTable) (id : String) (filled : Bool) :
    Except Unit String :=
  if filled then
    match ftab id with
    | none =>
      match otab id with
      | some s => .ok s
      | none => .error ()
    | some s => .ok s
  else
    match otab id with
    | some s => .ok s
    | none => .error ()

/-- The table `_MaterialIconSVG.__init__` ultimately consults for
`(id, filled)`. -/
def consultedTable (ftab otab : IconTable) (id : String) (filled : Bool) : IconTable :=
  if filled then
    match ftab id with
    | some _ => ftab
    | none => otab
  else otab

/-- The `color` argument of `material_icon`, one case per accepted shape:
absent, a hex string, a per-appearance dark/light mapping, an RGB/RGBA
tuple, a native `QColor`, or anything else. -/
inductive ColorSpec where
  | noneSpec : ColorSpec
  | hex (s : String) : ColorSpec
  | perAppearance (dark light : String) : ColorSpec
  | rgbaTup (r g b : Nat) (a : Option Nat) : ColorSpec
  | native (c : RGBA) : ColorSpec
  | otherShape : ColorSpec
deriving DecidableEq, Repr

/-- Modelled from the spec: `Color.from_rgba` of `bec_qthemes._color` (not
under `src/`) builds the concrete RGBA quadruple from the given channel
values verbatim, defaulting alpha to fully opaque when absent. -/
def colorFromRgba (r g b : Nat) (a : Option Nat) : RGBA := ⟨r, g, b, a.getD 255⟩

/-- The `QIcon.Mode` passed to `_MaterialIconEngine.paint`. -/
inductive PaintMode where
  | normal : PaintMode
  | disabled : PaintMode
  | active : PaintMode
  | selected : PaintMode
deriving DecidableEq, Repr

/-- The two palette colours the engine reads: the normal text colour and the
disabled-group text colour. -/
structure Palette where
  text : RGBA
  disabledText : RGBA
deriving DecidableEq, Repr

/-- Embedding of the colour-resolution branch of `_MaterialIconEngine.paint`
(src/bec_qthemes/_icon/material_icons.py, lines 64-96): the concrete colour
applied to the SVG for a given colour spec, mode and application palette. -/
def resolvePaintColor (spec : ColorSpec) (mode : PaintMode) (pal : Palette) : RGBA :=
  match spec with
  | .noneSpec => if mode = .disabled then pal.disabledText else pal.text
  | .hex s => colorFromHex s
  | .perAppearance _ _ => pal.text
  | .rgbaTup r g b a => colorFromRgba r g b a
  | .native c => colorFromRgba c.r c.g c.b (some c.a)
  | .otherShape => colorFromHex "#000000"

/-- The `icon_type` argument of `material_icon`: `QIcon`, `QPixmap`, or any
other type. -/
inductive IconType where
  | qicon : IconType
  | qpixmap : IconType
  | otherType : IconType
deriving DecidableEq, Repr

/-- The result of `material_icon`: a mode-reactive `QIcon` handle, or a
rasterised `QPixmap` with its pixel size. -/
inductive IconResult where
  | handle : IconResult
  | raster (w h : Nat) : IconResult
deriving DecidableEq, Repr

/-- The errors `material_icon` can raise: `LookupError` from the icon-table
lookup, `TypeError` from an invalid `icon_type`. -/
inductive IconErr where
  | lookupErr : IconErr
  | typeErr : IconErr
deriving DecidableEq, Repr

/-- Embedding of `material_icon`
(src/bec_qthemes/_icon/material_icons.py, lines 102-146): resolve the SVG
source first (propagating `LookupError`), then dispatch on `icon_type`: a
`QIcon` handle, a `QPixmap` rasterised at the requested size (`QSize(50,
50)` when no size is given; the pixel size of `QIconEngine.pixmap`, modelled
from the spec's "rasterize into the requested pixel size" since
`SvgIconEngine` is not under `src/`), or `TypeError`. -/
def material_icon (ftab otab : IconTable) (name : String)
    (size : Option (Nat × Nat)) (filled : Bool) (iconType : IconType) :
    Except IconErr IconResult :=
  match materialIconSource ftab otab name filled with
  | .error _ => .error .lookupErr
  | .ok _ =>
    match iconType with
    | .qicon => .ok .handle
    | .qpixmap =>
      let s := size.getD (50, 50)
      .ok (.raster s.1 s.2)
    | .otherType => .error .typeErr

/-- A concrete root widget: 10×10 rectangle at the global origin, fresh
hover state with the sentinel pointer. -/
def fw0 : FWidget := ⟨0, 0, 10, 10, ⟨false, false, ⟨-1, -1⟩⟩⟩

/-- A concrete filled-icon table: only `"star"` has a filled variant. -/
def ftabEx : IconTable := fun s => if s = "star" then some "FILLED_STAR" else none

/-- A concrete outline-icon table with `"star"` and `"settings"`. -/
def otabEx : IconTable := fun s =>
  if s = "star" then some "STAR"
  else if s = "settings" then some "SETTINGS"
  else none

/-- A concrete palette with distinguishable text and disabled-text colours. -/
def palEx : Palette := ⟨⟨10, 20, 30, 255⟩, ⟨100, 100, 100, 255⟩⟩

/-- A concrete hovering, unpressed draw state with one accent stop. -/
def dw0 : DrawWidget :=
  ⟨40, 20, true, false, ⟨7, 3⟩, [⟨255, 0, 0, 255⟩]⟩

/-- A concrete widget style text with two `border-radius` declarations. -/
def wsEx : List Char := "aa border-radius: 4 bb border-radius :12 cc".toList

/-- A concrete application style text with one `border-radius` declaration. -/
def appEx : List Char := "qq border-radius:9 rr".toList

/-- A concrete style text with no `border-radius` declaration. -/
def plainEx : List Char := "no radius here".toList

/-- C1 (counterexample): the claim that `enable_hover_gradient` stores an
alpha ceiling `255 * clamp(opacity, 0, 1)` fails on the code: the source
computes `opacity = 255 * opacity` with no clamping, so a multiplier of `2`
stores `510`, not `255 * clamp(2, 0, 1) = 255`. -/
theorem enable_opacity_clamp_counterexample :
    (enable_hover_gradient freshWidget .noneArg 2).opacityCeil ≠
      255 * clampSpec 2 0 1 := by
  simp only [enable_hover_gradient, freshWidget, clampSpec]
  norm_num

/-- C1 (amended): `enable_hover_gradient` stores an alpha ceiling equal to
`255 * opacity`, with no clamping; the stored value lies in `[0, 255]`
whenever the caller-supplied multiplier lies in `[0, 1]`. -/
theorem enable_opacity_ceiling (w : WModel) (c : ColoursArg) (o : ℚ)
    (h : w.hg_enabled = false) :
    (enable_hover_gradient w c o).opacityCeil = 255 * o ∧
    (0 ≤ o → o ≤ 1 →
      0 ≤ (enable_hover_gradient w c o).opacityCeil ∧
      (enable_hover_gradient w c o).opacityCeil ≤ 255) := by
  have he : (enable_hover_gradient w c o).opacityCeil = 255 * o := by
    unfold enable_hover_gradient
    simp [h]
  refine ⟨he, fun h0 h1 => ?_⟩
  rw [he]
  exact ⟨by positivity, by nlinarith⟩

/-- C1 (witness): at multiplier `1/2` on a fresh widget the stored ceiling
is `255 * (1/2)` and lies in `[0, 255]`. -/
theorem enable_opacity_ceiling_witness :
    (enable_hover_gradient freshWidget .noneArg (1/2)).opacityCeil = 255 * (1/2) ∧
    (0 ≤ (enable_hover_gradient freshWidget .noneArg (1/2)).opacityCeil ∧
     (enable_hover_gradient freshWidget .noneArg (1/2)).opacityCeil ≤ 255) :=
  ⟨(enable_opacity_ceiling freshWidget .noneArg (1/2) rfl).1,
   (enable_opacity_ceiling freshWidget .noneArg (1/2) rfl).2
     (by norm_num) (by norm_num)⟩

/-- C10: `enable_hover_gradient` is idempotent: a second call on an
already-decorated widget is detected via the `_hg_enabled` marker and
changes no state at all (accent stops, opacity ceiling, paint wrapper,
filter and flags are all left in place), and calling it twice with any
arguments equals calling it once. -/
theorem enable_hover_gradient_idempotent (w : WModel) (c c₂ : ColoursArg) (o o₂ : ℚ) :
    enable_hover_gradient (enable_hover_gradient w c o) c₂ o₂ =
      enable_hover_gradient w c o ∧
    (w.hg_enabled = true → enable_hover_gradient w c o = w) := by
  unfold enable_hover_gradient
  by_cases h : w.hg_enabled <;> simp [h]

/-- C10 (witness): concrete double attachment equals single attachment, and
attaching to an already-decorated widget returns it unchanged. -/
theorem enable_hover_gradient_idempotent_witness :
    enable_hover_gradient
        (enable_hover_gradient freshWidget (.str "#ff0000") 1)
        (.list ["#00ff00", "#0000ff"]) (1/2) =
      enable_hover_gradient freshWidget (.str "#ff0000") 1 ∧
    enable_hover_gradient
        (enable_hover_gradient freshWidget (.str "#ff0000") 1)
        (.str "#123456") (3/4) =
      enable_hover_gradient freshWidget (.str "#ff0000") 1 :=
  ⟨(enable_hover_gradient_idempotent freshWidget (.str "#ff0000")
      (.list ["#00ff00", "#0000ff"]) 1 (1/2)).1,
   (enable_hover_gradient_idempotent
      (enable_hover_gradient freshWidget (.str "#ff0000") 1)
      (.str "#123456") .noneArg (3/4) 0).2 rfl⟩

/-- C4: the filled variant uses the filled table's entry when present and
otherwise falls back to the outline table's entry without raising; the
non-filled variant consults the outline table directly; the lookup raises
`LookupError` exactly when the name is absent from the table ultimately
consulted. -/
theorem materialIconSource_lookup (ftab otab : IconTable) (id : String) (filled : Bool) :
    (∀ s, ftab id = some s → materialIconSource ftab otab id true = .ok s) ∧
    (ftab id = none → ∀ s, otab id = some s →
      materialIconSource ftab otab id true = .ok s) ∧
    (∀ s, otab id = some s → materialIconSource ftab otab id false = .ok s) ∧
    (materialIconSource ftab otab id filled = .error () ↔
      consultedTable ftab otab id filled id = none) := by
  unfold materialIconSource consultedTable
  cases hf : ftab id <;> cases ho : otab id <;> cases filled <;> simp [hf, ho]

/-- C4 (witness): `"settings"` has no filled entry and falls back to the
outline entry without raising; an absent name makes the consulted table
lookup fail. -/
theorem materialIconSource_lookup_witness :
    materialIconSource ftabEx otabEx "settings" true = .ok "SETTINGS" ∧
    materialIconSource ftabEx otabEx "star" true = .ok "FILLED_STAR" ∧
    (materialIconSource ftabEx otabEx "nonexistent_icon_xyz" false = .error () ↔
      consultedTable ftabEx otabEx "nonexistent_icon_xyz" false "nonexistent_icon_xyz" = none) :=
  ⟨(materialIconSource_lookup ftabEx otabEx "settings" true).2.1 (by decide)
      "SETTINGS" (by decide),
   (materialIconSource_lookup ftabEx otabEx "star" true).1 "FILLED_STAR" (by decide),
   (materialIconSource_lookup ftabEx otabEx "nonexistent_icon_xyz" false).2.2.2⟩

/-- C5: colour resolution in `_MaterialIconEngine.paint` yields the
palette's disabled text colour for an absent spec in disabled mode, the
palette's normal text colour for an absent spec otherwise, the parsed hex
colour for a hex string regardless of palette or mode, the palette's normal
text colour for a per-appearance mapping, the given channel values verbatim
for a tuple or native colour, and opaque black for any unrecognised shape;
the resolver is a total function and never raises. -/
theorem resolvePaintColor_spec (pal : Palette) (mode : PaintMode) :
    (resolvePaintColor .noneSpec .disabled pal = pal.disabledText) ∧
    (mode ≠ .disabled → resolvePaintColor .noneSpec mode pal = pal.text) ∧
    (∀ s, resolvePaintColor (.hex s) mode pal = colorFromHex s) ∧
    (∀ d l, resolvePaintColor (.perAppearance d l) mode pal = pal.text) ∧
    (∀ r g b a, resolvePaintColor (.rgbaTup r g b a) mode pal = colorFromRgba r g b a) ∧
    (∀ cl, resolvePaintColor (.native cl) mode pal = cl) ∧
    (resolvePaintColor .otherShape mode pal = ⟨0, 0, 0, 255⟩) := by
  refine ⟨rfl, fun hm => ?_, fun s => rfl, fun d l => rfl, fun r g b a => rfl,
    fun cl => ?_, rfl⟩
  · cases mode <;> simp_all [resolvePaintColor]
  · cases cl
    rfl

/-- C5 (witness): on a concrete palette, an absent spec in normal mode gives
the normal text colour, and `"#ff0000"` resolves to its parse (pure red). -/
theorem resolvePaintColor_spec_witness :
    resolvePaintColor .noneSpec .normal palEx = palEx.text ∧
    resolvePaintColor (.hex "#ff0000") .disabled palEx = colorFromHex "#ff0000" :=
  ⟨(resolvePaintColor_spec palEx .normal).2.1 (by decide),
   (resolvePaintColor_spec palEx .disabled).2.2.1 "#ff0000"⟩

/-- C9: for a name known under the requested variant, `material_icon` with
the `QPixmap` result kind returns a raster of exactly the requested pixel
size, defaulting to 50×50 when no size is given, and it raises `TypeError`
exactly when `icon_type` is neither `QIcon` nor `QPixmap`. -/
theorem material_icon_size_and_kind (ftab otab : IconTable) (name : String)
    (filled : Bool) (h : ∃ s, materialIconSource ftab otab name filled = .ok s) :
    (∀ pw ph, material_icon ftab otab name (some (pw, ph)) filled .qpixmap =
      .ok (.raster pw ph)) ∧
    (material_icon ftab otab name none filled .qpixmap = .ok (.raster 50 50)) ∧
    (∀ size t, material_icon ftab otab name size filled t = .error .typeErr ↔
      t = .otherType) := by
  obtain ⟨s, hs⟩ := h
  unfold material_icon
  rw [hs]
  refine ⟨fun pw ph => rfl, rfl, fun size t => ?_⟩
  cases t <;> simp

/-- C9 (witness): `renderIcon("star", size=(32,32))` yields a 32×32 raster,
the no-size call yields 50×50, and a non-icon result type is `TypeError`. -/
theorem material_icon_size_and_kind_witness :
    material_icon ftabEx otabEx "star" (some (32, 32)) false .qpixmap =
      .ok (.raster 32 32) ∧
    material_icon ftabEx otabEx "star" none false .qpixmap = .ok (.raster 50 50) ∧
    (material_icon ftabEx otabEx "star" none false .otherType = .error .typeErr ↔
      IconType.otherType = .otherType) :=
  ⟨(material_icon_size_and_kind ftabEx otabEx "star" false ⟨"STAR", rfl⟩).1 32 32,
   (material_icon_size_and_kind ftabEx otabEx "star" false ⟨"STAR", rfl⟩).2.1,
   (material_icon_size_and_kind ftabEx otabEx "star" false ⟨"STAR", rfl⟩).2.2
     none .otherType⟩

/-- C2: the paint-time overlay draws nothing when `hovering` is false or the
pointer is the never-entered sentinel; otherwise (pointer a real local
position, so with non-negative x) it fills the clip path with a radial
gradient centred at the last pointer position, radius `max(width, height) *
0.6` when pressed and `* 0.9` otherwise, centre colour accent stop 0 with
alpha `opacity` when pressed and `opacity * 0.6` otherwise, edge colour
accent stop 1 when present and fully transparent otherwise. -/
theorem draw_hover_gradient_spec (w : DrawWidget) (opacity : ℚ) (c₀ : RGBA)
    (rest : List RGBA) (hcols : w.cols = c₀ :: rest) :
    (w.hover = false → draw_hover_gradient w opacity = none) ∧
    (w.pos = sentinelPos → draw_hover_gradient w opacity = none) ∧
    (w.hover = true → 0 ≤ w.pos.x →
      draw_hover_gradient w opacity = some
        { center := w.pos
          radius := (max w.wdt w.hgt : ℚ) * (if w.pressed then 6/10 else 9/10)
          centerR := c₀.r, centerG := c₀.g, centerB := c₀.b
          centerAlpha := if w.pressed then opacity else opacity * (6/10)
          edge := rest.headD transparentColor }) := by
  refine ⟨fun hh => ?_, fun hp => ?_, fun hh hx => ?_⟩
  · simp [draw_hover_gradient, hh]
  · simp [draw_hover_gradient, hp, sentinelPos]
  · simp only [draw_hover_gradient, hh, hcols]
    rw [if_neg (by simp; omega)]
    cases rest <;> simp [List.headD]

/-- C2 (witness): a hovering, unpressed 40×20 widget with pointer `(7, 3)`
and a single red accent stop draws a radius-36 gradient centred at `(7, 3)`
with centre alpha `opacity * 0.6` and transparent edge; the same widget with
the sentinel pointer draws nothing. -/
theorem draw_hover_gradient_spec_witness :
    draw_hover_gradient dw0 200 = some
      { center := dw0.pos
        radius := (max dw0.wdt dw0.hgt : ℚ) * (if dw0.pressed then 6/10 else 9/10)
        centerR := RGBA.r ⟨255, 0, 0, 255⟩, centerG := RGBA.g ⟨255, 0, 0, 255⟩
        centerB := RGBA.b ⟨255, 0, 0, 255⟩
        centerAlpha := if dw0.pressed then (200 : ℚ) else 200 * (6/10)
        edge := List.headD [] transparentColor } ∧
    draw_hover_gradient { dw0 with pos := sentinelPos } 200 = none :=
  ⟨(draw_hover_gradient_spec dw0 200 ⟨255, 0, 0, 255⟩ [] rfl).2.2 rfl (by decide),
   (draw_hover_gradient_spec { dw0 with pos := sentinelPos } 200
      ⟨255, 0, 0, 255⟩ [] rfl).2.1 rfl⟩

/-- C3: the shared listener's transitions on the root widget's state: a
pointer-move inside bounds sets `hovering` true, updates the stored pointer
only when it changed and requests a repaint exactly then; a pointer-move
outside bounds clears `hovering` and repaints only if the widget was
hovering; a pointer-enter sets `hovering` and the stored position and
repaints; press and release set and clear `pressed`, each repainting — and
the result never depends on which descendant (`watched`) the event arrived
on. -/
theorem eventFilter_spec (w : FWidget) (watched : Nat) :
    (∀ g, rectContains w (mapFromGlobal w g) = true →
      eventFilter w watched (.mouseMove g) =
        ({ w.st with hover := true, pos := mapFromGlobal w g },
         decide (mapFromGlobal w g ≠ w.st.pos))) ∧
    (∀ g, rectContains w (mapFromGlobal w g) = false →
      eventFilter w watched (.mouseMove g) =
        (if w.st.hover then ({ w.st with hover := false }, true)
         else (w.st, false))) ∧
    (∀ p, eventFilter w watched (.enter p) =
      ({ w.st with hover := true, pos := p }, true)) ∧
    (eventFilter w watched .press = ({ w.st with pressed := true }, true)) ∧
    (eventFilter w watched .release = ({ w.st with pressed := false }, true)) ∧
    (∀ (watched₂ : Nat) (e : Ev),
      eventFilter w watched e = eventFilter w watched₂ e) := by
  have step : ∀ g, eventFilter w watched (.mouseMove g) =
      if rectContains w (mapFromGlobal w g) then
        (if mapFromGlobal w g ≠ w.st.pos then
          ({ w.st with pos := mapFromGlobal w g, hover := true }, true)
        else ({ w.st with hover := true }, false))
      else if w.st.hover then ({ w.st with hover := false }, true)
      else (w.st, false) := fun g => rfl
  refine ⟨fun g hg => ?_, fun g hg => ?_, fun p => rfl, rfl, rfl,
    fun watched₂ e => rfl⟩
  · rw [step, if_pos hg]
    by_cases hp : mapFromGlobal w g = w.st.pos
    · rw [if_neg (fun hc => hc hp)]
      simp [hp]
    · rw [if_pos hp]
      simp [hp]
  · rw [step, if_neg (by simp [hg])]

/-- C3 (witness): on a concrete 10×10 widget at the origin, a move to global
`(5, 5)` (inside) stores the position and repaints, a move to `(50, 5)`
(outside, not hovering) changes nothing, and an enter at `(2, 2)` stores it
and repaints. -/
theorem eventFilter_spec_witness :
    eventFilter fw0 0 (.mouseMove ⟨5, 5⟩) =
      ({ fw0.st with hover := true, pos := mapFromGlobal fw0 ⟨5, 5⟩ },
       decide (mapFromGlobal fw0 ⟨5, 5⟩ ≠ fw0.st.pos)) ∧
    eventFilter fw0 0 (.mouseMove ⟨50, 5⟩) =
      (if fw0.st.hover then ({ fw0.st with hover := false }, true)
       else (fw0.st, false)) ∧
    eventFilter fw0 0 (.enter ⟨2, 2⟩) =
      ({ fw0.st with hover := true, pos := ⟨2, 2⟩ }, true) :=
  ⟨(eventFilter_spec fw0 0).1 ⟨5, 5⟩ (by decide),
   (eventFilter_spec fw0 0).2.1 ⟨50, 5⟩ (by decide),
   (eventFilter_spec fw0 0).2.2.1 ⟨2, 2⟩⟩

/-- C8: after the destruction notification has run (`_on_dead` cleared the
back-reference), every event delivered to the listener is a no-op: the
filter state is unchanged, no repaint is requested, the destroyed widget is
never touched, and the (total) transition function cannot raise. -/
theorem eventFilterGuarded_after_dead (f : HFilter) (watched : Nat) (e : Ev) :
    eventFilterGuarded (on_dead f) watched e = (on_dead f, false) := rfl

/-- C6: the border-radius resolver scans the widget's own style text first:
when it contains a `border-radius` declaration the result is the value of
the last one there and the application style text is never consulted; only
when the widget text has no declaration is the application text consulted,
again taking the last declaration; with no declaration anywhere the result
is 0. -/
theorem extract_border_radius_spec (ws app : List Char) :
    (∀ n, (findAllRadius ws).getLast? = some n →
      extract_border_radius ⟨ws, some app⟩ = n ∧
      extract_border_radius ⟨ws, none⟩ = n) ∧
    (findAllRadius ws = [] →
      (∀ n, (findAllRadius app).getLast? = some n →
        extract_border_radius ⟨ws, some app⟩ = n) ∧
      (findAllRadius app = [] → extract_border_radius ⟨ws, some app⟩ = 0) ∧
      extract_border_radius ⟨ws, none⟩ = 0) := by
  constructor
  · intro n hn
    exact ⟨by simp [extract_border_radius, firstSourceLast, hn],
      by simp [extract_border_radius, firstSourceLast, hn]⟩
  · intro hws
    have h₂ : (findAllRadius ws).getLast? = none := by simp [hws]
    refine ⟨fun n hn => ?_, fun happ => ?_, ?_⟩
    · simp [extract_border_radius, firstSourceLast, h₂, hn]
    · simp [extract_border_radius, firstSourceLast, h₂, happ]
    · simp [extract_border_radius, firstSourceLast, h₂]

/-- C6 (witness): a widget text with declarations `4` then `12` resolves to
`12` with or without an application text; a widget text with no declaration
falls back to the application text's `9`; no declaration anywhere gives 0. -/
theorem extract_border_radius_spec_witness :
    (extract_border_radius ⟨wsEx, some appEx⟩ = 12 ∧
     extract_border_radius ⟨wsEx, none⟩ = 12) ∧
    extract_border_radius ⟨plainEx, some appEx⟩ = 9 ∧
    extract_border_radius ⟨plainEx, some plainEx⟩ = 0 :=
  ⟨(extract_border_radius_spec wsEx appEx).1 12 rfl,
   ((extract_border_radius_spec plainEx appEx).2 rfl).1 9 rfl,
   ((extract_border_radius_spec plainEx plainEx).2 rfl).2.1 rfl⟩

/-- C7: the corner radius is computed from style text at most once: the
first paint after attachment (empty memo) extracts it and memoises it, any
paint with a memoised radius returns that radius and leaves the state
unchanged, and in particular changing the style texts after the first paint
never changes the radius used. -/
theorem patched_paint_memoization (s : PaintState) (hs : s.cachedRadius = none) :
    (patched_paint_radius s).1 = extract_border_radius s.env ∧
    ((patched_paint_radius s).2).cachedRadius = some (patched_paint_radius s).1 ∧
    (∀ (s₂ : PaintState) (r : Nat), s₂.cachedRadius = some r →
      patched_paint_radius s₂ = (r, s₂)) ∧
    (∀ env₂, (patched_paint_radius
        { (patched_paint_radius s).2 with env := env₂ }).1 =
      (patched_paint_radius s).1) :=
  ⟨by simp [patched_paint_radius, hs],
   by simp [patched_paint_radius, hs],
   fun s₂ r hr => by simp [patched_paint_radius, hr],
   fun env₂ => by simp [patched_paint_radius, hs]⟩

/-- C7 (witness): first paint over a style text declaring radius 12
memoises 12, and a second paint after swapping to a radius-free style text
still uses 12. -/
theorem patched_paint_memoization_witness :
    (patched_paint_radius ⟨⟨wsEx, none⟩, none⟩).1 =
      extract_border_radius ⟨wsEx, none⟩ ∧
    (patched_paint_radius
        { (patched_paint_radius ⟨⟨wsEx, none⟩, none⟩).2 with
          env := ⟨plainEx, none⟩ }).1 =
      (patched_paint_radius ⟨⟨wsEx, none⟩, none⟩).1 :=
  ⟨(patched_paint_memoization ⟨⟨wsEx, none⟩, none⟩ rfl).1,
   (patched_paint_memoization ⟨⟨wsEx, none⟩, none⟩ rfl).2.2.2 ⟨plainEx, none⟩⟩

end BecQThemes
